import Mathlib

/-
  Verification of the TikTok download bot (Rust) against its natural-language
  specification.  Each Rust function relevant to the claims is shallowly
  embedded as an executable Lean definition:

  * `ProgressBar` — src/utils/progress_bar.rs (throttled status message);
  * `Broadcast`   — src/handlers/broadcast.rs (FLOOD_WAIT parsing and sleep);
  * `Uploader`    — src/mtproto_uploader/uploader.rs (with_reconnect_retry);
  * `Fetcher`     — src/yt_dlp_interface/fetcher.rs (output file location);
  * `Link`        — src/handlers/link.rs (the pipeline orchestrator).

  Machine integers (u8, u64) are modelled as `Nat` with explicit bounds where
  overflow can matter; `tokio::time::Instant` is a `Nat` count of
  milliseconds; fallible operations return `Except String` or are driven by
  explicit outcome oracles recorded in an environment structure.
-/

/-- Substring containment, modelling Rust `str::contains` for plain
    (non-regex) patterns: some suffix of `s` starts with `pat`. -/
def strContains (s pat : String) : Bool :=
  s.toList.tails.any (fun t => pat.toList.isPrefixOf t)

namespace ProgressBar

/-- `MIN_UPDATE_INTERVAL` from src/utils/progress_bar.rs line 7
    (`Duration::from_secs(3)`), in milliseconds. -/
def MIN_UPDATE_INTERVAL : Nat := 3000

/-- The mutable state of `ProgressBarInner` (src/utils/progress_bar.rs
    lines 9-15): whether a status message currently exists
    (`message_id.is_some()`), the instant of the last accepted update and the
    last rendered percentage (a `u8`, modelled as `Nat`). -/
structure PBState where
  hasMessage : Bool
  lastUpdate : Option Nat
  lastPercentage : Nat
  deriving Repr, DecidableEq

/-- The state produced by `ProgressBar::new` (lines 31-41). -/
def initState : PBState :=
  { hasMessage := false, lastUpdate := none, lastPercentage := 0 }

/-- `ProgressBar::start` (lines 43-49): sends the status message and records
    the current instant; the last rendered percentage is not touched. -/
def start (s : PBState) (now : Nat) : PBState :=
  { s with hasMessage := true, lastUpdate := some now }

/-- The `should_update` predicate of `ProgressBar::update` (lines 56-64).
    `percentage.saturating_sub(inner.last_percentage)` is truncated `Nat`
    subtraction; `now.duration_since(last)` is `now - last`.  Rust operator
    precedence makes the guard
    `(time_passed && (significant_change || is_completion)) || is_completion`. -/
def shouldUpdate (s : PBState) (now : Nat) (percentage : Nat) : Bool :=
  match s.lastUpdate with
  | some last =>
      (decide (MIN_UPDATE_INTERVAL ≤ now - last) &&
        (decide (5 ≤ percentage - s.lastPercentage) || decide (percentage = 100)))
      || decide (percentage = 100)
  | none => true

/-- `ProgressBar::update` (lines 51-113).  Returns the new state and whether a
    visible render (message edit, or re-creation) was performed.  When the
    guard rejects the call, the function returns before mutating any state. -/
def update (s : PBState) (now : Nat) (percentage : Nat) : PBState × Bool :=
  if shouldUpdate s now percentage then
    ({ s with lastUpdate := some now, lastPercentage := percentage }, true)
  else
    (s, false)

/-- Run a sequence of `update` calls, given as `(now, percentage)` pairs, and
    collect the percentages that produced a visible render. -/
def runUpdates (s : PBState) : List (Nat × Nat) → PBState × List Nat
  | [] => (s, [])
  | (now, p) :: rest =>
      let (s1, rendered) := update s now p
      let (s2, out) := runUpdates s1 rest
      (s2, if rendered then p :: out else out)

end ProgressBar

namespace Broadcast

/-- The literal part of the regex `FLOOD_WAIT_(\d+)` from
    src/handlers/broadcast.rs line 198. -/
def FLOOD_PAT : List Char := "FLOOD_WAIT_".toList

/-- Leftmost match of the regex `FLOOD_WAIT_(\d+)`: at the first position
    where the literal is followed by at least one ASCII digit, capture the
    maximal digit run; otherwise keep scanning. -/
def findFloodDigits : List Char → Option (List Char)
  | [] => none
  | c :: rest =>
      if FLOOD_PAT.isPrefixOf (c :: rest) then
        let ds := ((c :: rest).drop FLOOD_PAT.length).takeWhile Char.isDigit
        if ds.isEmpty then findFloodDigits rest else some ds
      else findFloodDigits rest

/-- Numeric value of an ASCII digit run. -/
def digitsVal (ds : List Char) : Nat :=
  ds.foldl (fun acc c => 10 * acc + (c.toNat - 48)) 0

/-- Whether the text has an occurrence of `FLOOD_WAIT_` followed by a digit,
    i.e. whether the regex `FLOOD_WAIT_(\d+)` matches at all. -/
def hasFloodPattern : List Char → Bool
  | [] => false
  | c :: rest =>
      (FLOOD_PAT.isPrefixOf (c :: rest) &&
        !(((c :: rest).drop FLOOD_PAT.length).takeWhile Char.isDigit).isEmpty)
      || hasFloodPattern rest

/-- `extract_flood_wait` (src/handlers/broadcast.rs lines 196-202): capture
    the digits of the first `FLOOD_WAIT_(\d+)` match and parse them as a
    `u64`; `parse::<u64>()` fails (yielding `None` through `.ok()`) when the
    value does not fit in 64 bits. -/
def extract_flood_wait (s : String) : Option Nat :=
  (findFloodDigits s.toList).bind fun ds =>
    if digitsVal ds < 2 ^ 64 then some (digitsVal ds) else none

/-- The flood-control sleep performed in the send-failure branch of
    `handle_broadcast_confirmation` (src/handlers/broadcast.rs lines
    158-167): `sleep(Duration::from_secs(secs.min(30)))` when
    `extract_flood_wait` matches, no sleep otherwise.  Returns the slept
    seconds, if any. -/
def flood_sleep_secs (errText : String) : Option Nat :=
  (extract_flood_wait errText).map (fun secs => min secs 30)

end Broadcast

namespace Uploader

/-- The disconnect test of `with_reconnect_retry`
    (src/mtproto_uploader/uploader.rs lines 144-146): the error text contains
    one of the three transport-disconnect substrings. -/
def is_disconnect_error (e : String) : Bool :=
  strContains e "read 0 bytes" || strContains e "ConnectionReset" ||
    strContains e "Connection lost"

/-- The generic error built after the loop
    (src/mtproto_uploader/uploader.rs line 167). -/
def OP_FAILED_AFTER_RETRIES : String := "Operation failed after retries"

/-- Observable trace of one `with_reconnect_retry` call: its result, the
    number of operation invocations, of `reconnect_client` calls, and of
    2-second pauses slept after successful reconnects. -/
structure WRRTrace (α : Type) where
  result : Except String α
  attempts : Nat
  reconnects : Nat
  pauses : Nat
  deriving Repr

/-- The body of the `for attempt in 0..max_retries` loop of
    `with_reconnect_retry` (src/mtproto_uploader/uploader.rs lines 133-168),
    with `max_retries = 3`.  `op k` is the outcome of the k-th invocation of
    the operation and `rc k` the outcome of the reconnection attempted after
    it (`reconnect_client` is an I/O procedure — load or create the persisted
    session, re-authenticate as the bot if not authorized, persist the
    session, swap the client under the lock — modelled by its success bit).
    On a disconnect error the client is reconnected and the loop retries,
    sleeping 2 seconds when the reconnect succeeded and more attempts remain;
    a failed reconnect on the last attempt returns the operation error
    itself; any non-disconnect error returns immediately; falling out of the
    loop yields the generic failed-after-retries error. -/
def wrr_loop (op : Nat → Except String α) (rc : Nat → Bool) :
    Nat → Nat → WRRTrace α
  | 0, _ => ⟨.error OP_FAILED_AFTER_RETRIES, 0, 0, 0⟩
  | remaining + 1, attempt =>
    match op attempt with
    | .ok v => ⟨.ok v, 1, 0, 0⟩
    | .error e =>
      if is_disconnect_error e then
        if rc attempt then
          let pause := if attempt < 2 then 1 else 0
          let t := wrr_loop op rc remaining (attempt + 1)
          ⟨t.result, t.attempts + 1, t.reconnects + 1, t.pauses + pause⟩
        else
          if attempt = 2 then ⟨.error e, 1, 1, 0⟩
          else
            let t := wrr_loop op rc remaining (attempt + 1)
            ⟨t.result, t.attempts + 1, t.reconnects + 1, t.pauses⟩
      else ⟨.error e, 1, 0, 0⟩

/-- `with_reconnect_retry` (src/mtproto_uploader/uploader.rs lines 133-168):
    run the loop over attempts 0, 1, 2. -/
def with_reconnect_retry (op : Nat → Except String α) (rc : Nat → Bool) :
    WRRTrace α :=
  wrr_loop op rc 3 0

end Uploader

namespace Fetcher

/-- The extension list probed in `download_video_from_url`
    (src/yt_dlp_interface/fetcher.rs lines 175-177). -/
def KNOWN_EXTS : List String :=
  [".mp4", ".mov", ".webm", ".mkv", ".flv", ".m4a", ".mp3", ".ogg", ".aac"]

/-- One directory scan (src/yt_dlp_interface/fetcher.rs lines 158-173 and
    191-206, two textually identical loops): the first regular file of the
    output directory whose name starts with the filename stem.  `files` is
    the directory listing in iteration order. -/
def find_by_stem (files : List String) (stem : String) : Option String :=
  files.find? (fun f => stem.toList.isPrefixOf f.toList)

/-- The extension probe (src/yt_dlp_interface/fetcher.rs lines 175-188): the
    first known extension for which `stem + ext` exists, as a path.
    `pexists` is the file-system `Path::exists` oracle. -/
def find_by_ext (pexists : String → Bool) (stem : String) : Option String :=
  (KNOWN_EXTS.find? (fun ext => pexists (stem ++ ext))).map (fun ext => stem ++ ext)

/-- The three-step file location of the success branch
    (src/yt_dlp_interface/fetcher.rs lines 147-212): a directory scan by stem
    (skipped when `read_dir` fails, modelled by `scan1Ok`), then the
    extension probe, then a second identical directory scan (`scan2Ok`). -/
def locate_output (scan1Ok scan2Ok : Bool) (files : List String)
    (pexists : String → Bool) (stem : String) : Option String :=
  match (if scan1Ok then find_by_stem files stem else none) with
  | some f => some f
  | none =>
    match find_by_ext pexists stem with
    | some f => some f
    | none => if scan2Ok then find_by_stem files stem else none

/-- The post-subprocess part of `download_video_from_url`
    (src/yt_dlp_interface/fetcher.rs lines 147-230): on a success exit
    status, locate the produced file and fail with "Downloaded file not
    found" when all three steps miss; on a failure exit status, fail with the
    captured stderr diagnostic text. -/
def download_finish (statusSuccess : Bool) (stderrText : String)
    (scan1Ok scan2Ok : Bool) (files : List String) (pexists : String → Bool)
    (stem : String) : Except String String :=
  if statusSuccess then
    match locate_output scan1Ok scan2Ok files pexists stem with
    | some f => .ok f
    | none => .error "Downloaded file not found"
  else
    .error ("yt-dlp failed: " ++ stderrText.trim)

end Fetcher

namespace Link

/-- `DOWNLOAD_TIMEOUT` (src/handlers/link.rs line 30), in milliseconds. -/
def DOWNLOAD_TIMEOUT_MS : Nat := 300000

/-- `UPLOAD_TIMEOUT` (src/handlers/link.rs line 31), in milliseconds. -/
def UPLOAD_TIMEOUT_MS : Nat := 600000

/-- `TELEGRAM_BOT_API_FILE_LIMIT` (src/handlers/link.rs line 32). -/
def TELEGRAM_BOT_API_FILE_LIMIT : Nat := 48 * 1024 * 1024

/-- `is_menu_button` (src/handlers/ui.rs lines 7-15). -/
def is_menu_button (text : String) : Bool :=
  text = "Admin Panel" || text = "⚙️ Settings" || text = "Format" ||
    text = "Subscription" || text = "Back"

/-- User-visible texts of src/handlers/link.rs. -/
def MSG_ALREADY_PROCESSING : String := "This video is already being processed."

def MSG_SUBSCRIBE : String := "To use the bot, please subscribe to our channels."

def MSG_INVALID_LINK : String := "Please send a valid TikTok link."

def MSG_UPLOAD_FAILED : String := "❌ Upload failed - please try again later"

def MSG_SEND_FAILED : String := "❌ Send failed after retries"

/-- The flood-wait variant of the upload-failure message
    (src/handlers/link.rs lines 289-293). -/
def msg_rate_limited (secs : Nat) : String :=
  "⏳ Rate limited. Please wait " ++ toString secs ++ " seconds and try again."

/-- Download-error classification (src/handlers/link.rs lines 205-226):
    substring tests on the error text, in source order, with a generic
    message truncating the error to 100 characters as the fallback. -/
def classify_download_error (e : String) : String :=
  if strContains e "Sign in required" then
    "🔒 Video requires sign in to TikTok - currently unavailable for download"
  else if strContains e "Video unavailable" ||
      strContains e "Requested format is not available" then
    "🚫 Video is unavailable or has been removed"
  else if strContains e "Private video" then
    "🔒 Video is private and cannot be downloaded"
  else if strContains e "This video is age-restricted" then
    "🔞 Video is age-restricted and cannot be downloaded"
  else if strContains e "Failed to parse" || strContains e "JSON" then
    "🔧 Error processing TikTok API response. Please try again later."
  else if strContains e "timeout" then
    "⏰ Download timeout - please try again"
  else
    "❌ Failed to download video: " ++ String.mk (e.toList.take 100)

/-- Outcome of one attempt of a `timeout(..., future)` call: the future
    succeeded, the future failed, or the wall-clock timeout expired
    (`tokio::time::error::Elapsed`, whose display text is below). -/
inductive Attempt (α : Type) where
  | ok (v : α)
  | opErr (e : String)
  | timedOut
  deriving Repr, DecidableEq

/-- Display text of `tokio::time::error::Elapsed`, the error value surfaced
    when the overall timeout of an attempt expires. -/
def TIMEOUT_ELAPSED : String := "deadline has elapsed"

/-- Whether an attempt failed, either by operation error or by timeout: the
    two branches of the retry loops treat both identically. -/
def Attempt.isFail : Attempt α → Bool
  | .ok _ => false
  | .opErr _ => true
  | .timedOut => true

/-- The error surfaced when this failed attempt is the last one
    (`break Err(e)` / `break Err(anyhow::Error::new(e))`). -/
def Attempt.failErr : Attempt α → String
  | .ok _ => ""
  | .opErr e => e
  | .timedOut => TIMEOUT_ELAPSED

/-- The backoff delay slept after the `retries`-th failure:
    `(1000 * 2_u64.pow(retries - 1)).min(30000)` (src/handlers/link.rs lines
    184, 192, 331, 339), in milliseconds. -/
def retry_delay (retries : Nat) : Nat :=
  min (1000 * 2 ^ (retries - 1)) 30000

/-- The manual retry loop of src/handlers/link.rs (lines 166-196 for the
    download, lines 301-343 for the Bot API send; the two loops are textually
    identical up to the wrapped future).  `f k` is the outcome of the attempt
    made with `retries = k`.  On a failure the counter is incremented; when
    it reaches 3 the loop breaks with that failure's error, otherwise it
    sleeps the backoff delay and retries.  Returns the result and the list of
    backoff delays slept.  The fuel argument only bounds the recursion; the
    loop always breaks before fuel 3 runs out, so the fuel-0 line is never
    reached from `retry_loop`. -/
def retry_go (f : Nat → Attempt α) : Nat → Nat → Except String α × List Nat
  | 0, _ => (.error TIMEOUT_ELAPSED, [])
  | fuel + 1, retries =>
    match f retries with
    | .ok v => (.ok v, [])
    | .opErr e =>
      if 3 ≤ retries + 1 then (.error e, [])
      else
        let d := retry_delay (retries + 1)
        let r := retry_go f fuel (retries + 1)
        (r.1, d :: r.2)
    | .timedOut =>
      if 3 ≤ retries + 1 then (.error TIMEOUT_ELAPSED, [])
      else
        let d := retry_delay (retries + 1)
        let r := retry_go f fuel (retries + 1)
        (r.1, d :: r.2)

/-- The retry loop entered with `retries = 0`. -/
def retry_loop (f : Nat → Attempt α) : Except String α × List Nat :=
  retry_go f 3 0

/-- The two delivery transports of the pipeline. -/
inductive Transport where
  | mtproto
  | botApi
  deriving Repr, DecidableEq

/-- Transport selection (src/handlers/link.rs line 250):
    `if file_size > TELEGRAM_BOT_API_FILE_LIMIT` then the persistent MTProto
    client, else the direct Bot API transport. -/
def select_transport (file_size : Nat) : Transport :=
  if file_size > TELEGRAM_BOT_API_FILE_LIMIT then .mtproto else .botApi

/-- Observable steps of one `link_handler` invocation. -/
inductive Event where
  | updateActivity (uid : Int)
  | sendMsg (uid : Int) (text : String)
  | insertUrl (url : String)
  | removeUrl (url : String)
  | rateSleep (ms : Nat)
  | acquirePermit
  | progressStart
  | progressUpdate (pct : Nat)
  | progressDelete
  | downloadAttempt (k : Nat)
  | backoffSleep (ms : Nat)
  | mtprotoUpload (isAudio : Bool)
  | botApiAttempt (k : Nat) (isAudio : Bool)
  | logDownload (uid : Int) (url : String)
  deriving Repr, DecidableEq

/-- Interleave the attempt events of a retry loop with its backoff sleeps:
    attempt 0, sleep d1, attempt 1, sleep d2, attempt 2, ... -/
def retry_events (mk : Nat → Event) : List Nat → Nat → List Event
  | [], k => [mk k]
  | d :: ds, k => mk k :: Event.backoffSleep d :: retry_events mk ds (k + 1)

/-- The process-wide mutable state touched by `link_handler`: the in-flight
    URL set `URL_PROCESSING` and the per-chat rate-limit map `LAST_SEND`
    (src/handlers/link.rs lines 25-28). -/
structure BotState where
  urlProcessing : List String
  lastSend : Int → Option Nat

/-- `URL_PROCESSING.remove(&url)` on a state. -/
def remove_url (s : BotState) (url : String) : BotState :=
  { s with urlProcessing := s.urlProcessing.erase url }

/-- The rate-limit wait (src/handlers/link.rs lines 102-110): if an entry
    exists and less than 2 seconds elapsed since it, the remainder of the
    2-second interval, else zero.  `Instant::elapsed` saturates at zero,
    matching truncated `Nat` subtraction. -/
def rate_limit_wait (lastSend : Int → Option Nat) (uid : Int) (now : Nat) : Nat :=
  match lastSend uid with
  | some last => if now - last < 2000 then 2000 - (now - last) else 0
  | none => 0

/-- The unconditional `last_send.insert(user_id, Instant::now())`
    (src/handlers/link.rs line 111), performed after the optional sleep, so
    the stored instant is the entry time plus the wait. -/
def rate_limit_update (lastSend : Int → Option Nat) (uid : Int) (now : Nat) :
    Int → Option Nat :=
  fun i => if i = uid then some (now + rate_limit_wait lastSend uid now)
    else lastSend i

/-- Abstract error payloads for propagated (`?`) failures; the claims never
    inspect these texts, only that the invocation exits with an error. -/
def SEND_ERR : String := "telegram send failed"

def METADATA_ERR : String := "fs metadata failed"

/-- Outcome oracles for the external effects of one `link_handler`
    invocation: the message text and chat id, the database-backed settings
    (already resolved through their `unwrap_or` defaults), the success bits
    of each fallible Telegram call reached through `?`, the per-attempt
    download and Bot API send outcomes, the two `fs::metadata` results
    (lines 245 and 248) and the MTProto upload outcome (`none` = success).
    `ProgressBar::update` and `ProgressBar::delete` always return `Ok` (their
    internal errors are swallowed), so they need no oracles. -/
structure Env where
  now : Nat
  chatId : Int
  msgText : Option String
  quality : String
  subscriptionRequired : Bool
  isAdmin : Bool
  isSubscribed : Bool
  dupNoticeOk : Bool
  gateNoticeOk : Bool
  progressStartOk : Bool
  downloadAttempts : Nat → Attempt String
  dlErrMsgOk : Bool
  metadata1 : Option Nat
  metadata2 : Option Nat
  mtprotoResult : Option String
  floodErrMsgOk : Bool
  botApiAttempts : Nat → Attempt Unit
  sendFailMsgOk : Bool
  invalidLinkMsgOk : Bool

/-- Result of one invocation: the `Result` value returned to the dispatcher,
    the final shared state, and the observable events in order. -/
structure RunResult where
  result : Except String Unit
  state : BotState
  events : List Event

/-- The tail of every delivery path (src/handlers/link.rs lines 361-391):
    idempotent activity logging plus the download record (database errors are
    only logged), then the removal of the URL from `URL_PROCESSING`. -/
def finish (uid : Int) (url : String) (s2 : BotState) (ev : List Event) :
    RunResult :=
  ⟨.ok (), remove_url s2 url, ev ++ [.logDownload uid url, .removeUrl url]⟩

/-- Everything after the upload permit is acquired (src/handlers/link.rs
    lines 138-391): subscription gate, progress start, download retry loop,
    error classification, transport selection, upload, logging and cleanup.
    `s2` is the shared state after dedup insertion and rate limiting; the
    returned events are this stage's own segment.  Every `?` on a fallible
    call is modelled: a failure exits with `.error` and skips the rest of the
    function, including the `URL_PROCESSING` cleanup blocks.  The
    `crate::utils::retry::extract_flood_wait` helper used at line 289 is not
    among the provided sources; it is modelled as the same
    `FLOOD_WAIT_(\d+)` parser as the copy in src/handlers/broadcast.rs. -/
def after_permit (env : Env) (url : String) (s2 : BotState) : RunResult :=
  let uid := env.chatId
  let is_audio := env.quality = "audio"
  if env.subscriptionRequired && (!env.isAdmin && !env.isSubscribed) then
    if env.gateNoticeOk then
      ⟨.ok (), remove_url s2 url, [.sendMsg uid MSG_SUBSCRIBE, .removeUrl url]⟩
    else
      ⟨.error SEND_ERR, s2, [.sendMsg uid MSG_SUBSCRIBE]⟩
  else if !env.progressStartOk then
    ⟨.error SEND_ERR, s2, [.progressStart]⟩
  else
    let dl := retry_loop env.downloadAttempts
    let dlEv := [Event.progressStart, Event.progressUpdate 5] ++
      retry_events Event.downloadAttempt dl.2 0
    match dl.1 with
    | .error e =>
      let evs := dlEv ++ [.progressDelete, .sendMsg uid (classify_download_error e)]
      if env.dlErrMsgOk then
        ⟨.ok (), remove_url s2 url, evs ++ [.removeUrl url]⟩
      else
        ⟨.error SEND_ERR, s2, evs⟩
    | .ok _path =>
      match env.metadata1 with
      | none => ⟨.error METADATA_ERR, s2, dlEv⟩
      | some _ =>
        match env.metadata2 with
        | none => ⟨.error METADATA_ERR, s2, dlEv⟩
        | some file_size =>
          match select_transport file_size with
          | .mtproto =>
            let upEv := dlEv ++ [Event.progressUpdate 85, Event.mtprotoUpload is_audio]
            match env.mtprotoResult with
            | none =>
              finish uid url s2 (upEv ++ [.progressUpdate 100, .progressDelete])
            | some e =>
              let m := match Broadcast.extract_flood_wait e with
                | some w => msg_rate_limited w
                | none => MSG_UPLOAD_FAILED
              let evs := upEv ++ [.progressDelete, .sendMsg uid m]
              if env.floodErrMsgOk then finish uid url s2 evs
              else ⟨.error SEND_ERR, s2, evs⟩
          | .botApi =>
            let snd := retry_loop env.botApiAttempts
            let upEv := dlEv ++
              retry_events (fun k => Event.botApiAttempt k is_audio) snd.2 0
            match snd.1 with
            | .ok _ => finish uid url s2 upEv
            | .error _ =>
              let evs := upEv ++ [.progressDelete, .sendMsg uid MSG_SEND_FAILED]
              if env.sendFailMsgOk then finish uid url s2 evs
              else ⟨.error SEND_ERR, s2, evs⟩

/-- `link_handler` (src/handlers/link.rs lines 48-403): activity update,
    text extraction, menu-button filter, TikTok-link test, deduplication
    against `URL_PROCESSING`, per-chat rate limiting, then the permit-guarded
    pipeline of `after_permit`.  The upload permit is acquired after the
    rate-limit block and before the subscription gate. -/
def link_handler (env : Env) (s0 : BotState) : RunResult :=
  let uid := env.chatId
  let ev0 : List Event := [.updateActivity uid]
  match env.msgText with
  | none => ⟨.ok (), s0, ev0⟩
  | some text =>
    if is_menu_button text then ⟨.ok (), s0, ev0⟩
    else if strContains text "tiktok.com" then
      let url := text
      if url ∈ s0.urlProcessing then
        ⟨if env.dupNoticeOk then .ok () else .error SEND_ERR, s0,
          ev0 ++ [.sendMsg uid MSG_ALREADY_PROCESSING]⟩
      else
        let s1 : BotState := { s0 with urlProcessing := url :: s0.urlProcessing }
        let wait := rate_limit_wait s0.lastSend uid env.now
        let s2 : BotState :=
          { s1 with lastSend := rate_limit_update s0.lastSend uid env.now }
        let rateEv := if 0 < wait then [Event.rateSleep wait] else []
        let r := after_permit env url s2
        ⟨r.result, r.state,
          ev0 ++ [.insertUrl url] ++ rateEv ++ [.acquirePermit] ++ r.events⟩
    else
      ⟨if env.invalidLinkMsgOk then .ok () else .error SEND_ERR, s0,
        ev0 ++ [.sendMsg uid MSG_INVALID_LINK]⟩

end Link

/-! ## Theorems -/

/-- Helper: `update` reports a render exactly when the `should_update` guard
    accepts the call. -/
theorem ProgressBar.update_rendered (s : ProgressBar.PBState) (now p : Nat) :
    (ProgressBar.update s now p).2 = ProgressBar.shouldUpdate s now p := by
  unfold ProgressBar.update
  split <;> simp_all

/-- Helper: when the guard rejects, `update` leaves the whole state unchanged
    and performs no render. -/
theorem ProgressBar.update_rejected (s : ProgressBar.PBState) (now p : Nat)
    (h : ProgressBar.shouldUpdate s now p = false) :
    ProgressBar.update s now p = (s, false) := by
  unfold ProgressBar.update
  simp [h]

/-- C6, counterexample.  The claim asserts that with the 3-second interval
    satisfied throughout, the arrival sequence [10, 12, 14, 20, 100] renders
    exactly 20 and 100.  On the code, starting from the post-`start` state
    (last rendered percentage 0), the call with 10 already satisfies the
    5-point test (10 - 0 ≥ 5) and renders, so the rendered values are
    [10, 20, 100], not [20, 100]. -/
theorem c6_progress_throttle_counterexample :
    (ProgressBar.runUpdates (ProgressBar.start ProgressBar.initState 0)
        [(4000, 10), (8000, 12), (12000, 14), (16000, 20), (20000, 100)]).2
      = [10, 20, 100] ∧ ([10, 20, 100] : List Nat) ≠ [20, 100] := by
  decide

/-- C6, amended.  After the last-update instant is set, `update` renders iff
    (the 3-second minimum interval has elapsed AND the percentage exceeds the
    last rendered one by at least 5) OR the percentage equals 100 — completion
    bypasses the interval test (Rust `&&` binds tighter than `||`).  For the
    arrival sequence [10, 12, 14, 20, 100] with the interval satisfied
    throughout, the rendered values are 10, 20 and 100; 12 and 14 are
    suppressed as sub-threshold deltas. -/
theorem c6_progress_throttle_amended :
    (∀ (s : ProgressBar.PBState) (now p last : Nat), s.lastUpdate = some last →
      ((ProgressBar.update s now p).2 = true ↔
        ((3000 ≤ now - last ∧ 5 ≤ p - s.lastPercentage) ∨ p = 100))) ∧
    (ProgressBar.runUpdates (ProgressBar.start ProgressBar.initState 0)
        [(4000, 10), (8000, 12), (12000, 14), (16000, 20), (20000, 100)]).2
      = [10, 20, 100] := by
  refine ⟨?_, by decide⟩
  intro s now p last h
  rw [ProgressBar.update_rendered]
  simp only [ProgressBar.shouldUpdate, h, ProgressBar.MIN_UPDATE_INTERVAL,
    Bool.or_eq_true, Bool.and_eq_true, decide_eq_true_eq]
  tauto

/-- C6, witness for the amended theorem: concrete instance where the interval
    has elapsed and the delta is 10 points, so the call renders. -/
theorem c6_progress_throttle_witness :
    (ProgressBar.update ⟨true, some 0, 0⟩ 4000 10).2 = true := by
  exact (c6_progress_throttle_amended.1 ⟨true, some 0, 0⟩ 4000 10 0 rfl).mpr
    (Or.inl ⟨by decide, by decide⟩)

/-- C10, counterexample.  The claim asserts the recorded last-rendered
    percentage is non-decreasing across ANY sequence of update calls once the
    last-update instant is set.  The percentage is a `u8`, so values above 100
    are possible inputs: after `update 105` (a ≥5-point jump, rendered), a
    later `update 100` is a completion, always rendered, and the recorded
    percentage drops from 105 to 100. -/
theorem c10_monotone_counterexample :
    (ProgressBar.runUpdates (ProgressBar.start ProgressBar.initState 0)
        [(4000, 105)]).1.lastPercentage = 105 ∧
    (ProgressBar.runUpdates (ProgressBar.start ProgressBar.initState 0)
        [(4000, 105), (8000, 100)]).1.lastPercentage = 100 ∧
    (100 : Nat) < 105 := by
  decide

/-- C10, amended.  (1) A call whose percentage is below the last rendered
    value and different from 100 is a complete no-op: no render, and the whole
    state (last-rendered percentage and last-update instant included) is
    unchanged, because the 5-point test uses saturating subtraction.
    (2) Consequently the recorded percentage is non-decreasing provided the
    percentages involved do not exceed 100 (as in every call site of the
    program); an out-of-range input above 100 followed by a completion call is
    the only way to make it decrease. -/
theorem c10_monotone_amended :
    (∀ (s : ProgressBar.PBState) (now p : Nat), s.lastUpdate ≠ none →
      p < s.lastPercentage → p ≠ 100 →
      ProgressBar.update s now p = (s, false)) ∧
    (∀ (s : ProgressBar.PBState) (now p : Nat), s.lastUpdate ≠ none →
      p ≤ 100 → s.lastPercentage ≤ 100 →
      s.lastPercentage ≤ (ProgressBar.update s now p).1.lastPercentage) := by
  constructor
  · intro s now p hset hlt hne
    apply ProgressBar.update_rejected
    obtain ⟨last, hlast⟩ : ∃ last, s.lastUpdate = some last := by
      cases hu : s.lastUpdate with
      | none => exact absurd hu hset
      | some v => exact ⟨v, rfl⟩
    have h1 : decide (5 ≤ p - s.lastPercentage) = false := by
      simp only [decide_eq_false_iff_not]
      omega
    have h2 : decide (p = 100) = false := by
      simp only [decide_eq_false_iff_not]
      omega
    simp [ProgressBar.shouldUpdate, hlast, h1, h2]
  · intro s now p hset hp hsp
    unfold ProgressBar.update
    split
    · rename_i hr
      obtain ⟨last, hlast⟩ : ∃ last, s.lastUpdate = some last := by
        cases hu : s.lastUpdate with
        | none => exact absurd hu hset
        | some v => exact ⟨v, rfl⟩
      simp only [ProgressBar.shouldUpdate, hlast, Bool.or_eq_true,
        Bool.and_eq_true, decide_eq_true_eq] at hr
      simp only
      omega
    · exact Nat.le_refl _

/-- C10, witness for the amended theorem: with last rendered percentage 50, a
    call with 47 (below, not completion) changes nothing, and a call with 60
    does not decrease the recorded percentage. -/
theorem c10_monotone_witness :
    ProgressBar.update ⟨true, some 0, 50⟩ 9000 47 = (⟨true, some 0, 50⟩, false) ∧
    (50 : Nat) ≤ (ProgressBar.update ⟨true, some 0, 50⟩ 9000 60).1.lastPercentage := by
  constructor
  · exact c10_monotone_amended.1 ⟨true, some 0, 50⟩ 9000 47 (by simp) (by decide) (by decide)
  · exact c10_monotone_amended.2 ⟨true, some 0, 50⟩ 9000 60 (by simp) (by decide) (by decide)

/-- Helper: the regex scanner finds digits exactly when the pattern
    `FLOOD_WAIT_` followed by a digit occurs in the text. -/
theorem Broadcast.findFloodDigits_isSome (l : List Char) :
    (Broadcast.findFloodDigits l).isSome = Broadcast.hasFloodPattern l := by
  induction l with
  | nil => rfl
  | cons c rest ih =>
      by_cases hpre : Broadcast.FLOOD_PAT.isPrefixOf (c :: rest)
      · by_cases hds :
          (((c :: rest).drop Broadcast.FLOOD_PAT.length).takeWhile Char.isDigit).isEmpty
        · simp [Broadcast.findFloodDigits, Broadcast.hasFloodPattern, hpre, hds, ih]
        · simp [Broadcast.findFloodDigits, Broadcast.hasFloodPattern, hpre, hds]
      · simp [Broadcast.findFloodDigits, Broadcast.hasFloodPattern, hpre, ih]

/-- C8, counterexample.  The claim promises a sleep of `min(n, 30)` seconds
    for EVERY error text containing `FLOOD_WAIT_<n>`.  The code parses the
    digits with `parse::<u64>()`, which fails for n = 2^64 =
    18446744073709551616; the pattern is present, the claim demands a
    30-second sleep, but the code performs no flood-control sleep at all. -/
theorem c8_flood_wait_counterexample :
    Broadcast.hasFloodPattern ("FLOOD_WAIT_18446744073709551616").toList = true ∧
    Broadcast.flood_sleep_secs "FLOOD_WAIT_18446744073709551616" = none ∧
    (18446744073709551616 : Nat) = 2 ^ 64 := by
  decide

/-- C8, amended.  An error text with no `FLOOD_WAIT_<digits>` occurrence
    produces no flood-control sleep; when the first occurrence's digit run
    parses as a 64-bit value n, the sleep is exactly `min(n, 30)` seconds;
    when the digit run overflows a u64 (n ≥ 2^64), the parse fails and no
    sleep is performed. -/
theorem c8_flood_wait_amended :
    (∀ s : String, Broadcast.hasFloodPattern s.toList = false →
      Broadcast.flood_sleep_secs s = none) ∧
    (∀ (s : String) (ds : List Char), Broadcast.findFloodDigits s.toList = some ds →
      Broadcast.digitsVal ds < 2 ^ 64 →
      Broadcast.flood_sleep_secs s = some (min (Broadcast.digitsVal ds) 30)) ∧
    (∀ (s : String) (ds : List Char), Broadcast.findFloodDigits s.toList = some ds →
      2 ^ 64 ≤ Broadcast.digitsVal ds →
      Broadcast.flood_sleep_secs s = none) := by
  refine ⟨?_, ?_, ?_⟩
  · intro s h
    have hs := Broadcast.findFloodDigits_isSome s.toList
    rw [h] at hs
    cases hf : Broadcast.findFloodDigits s.toList with
    | none =>
        unfold Broadcast.flood_sleep_secs Broadcast.extract_flood_wait
        rw [hf]
        rfl
    | some ds => rw [hf] at hs; simp at hs
  · intro s ds h hlt
    unfold Broadcast.flood_sleep_secs Broadcast.extract_flood_wait
    rw [h, Option.some_bind, if_pos hlt]
    rfl
  · intro s ds h hge
    unfold Broadcast.flood_sleep_secs Broadcast.extract_flood_wait
    rw [h, Option.some_bind, if_neg (by omega)]
    rfl

/-- C8, witness for the amended theorem: `FLOOD_WAIT_100` inside an error
    text yields a sleep of min(100, 30) = 30 seconds. -/
theorem c8_flood_wait_witness :
    Broadcast.flood_sleep_secs "x FLOOD_WAIT_100 y" = some 30 := by
  have h := c8_flood_wait_amended.2.1 "x FLOOD_WAIT_100 y"
    ['1', '0', '0'] (by decide) (by decide)
  have hv : min (Broadcast.digitsVal ['1', '0', '0']) 30 = 30 := by decide
  rw [hv] at h
  exact h

/-- Helper: each run of the retry loop performs at most `remaining` operation
    invocations. -/
theorem Uploader.wrr_loop_attempts_le {α : Type} (op : Nat → Except String α)
    (rc : Nat → Bool) :
    ∀ (r a : Nat), (Uploader.wrr_loop op rc r a).attempts ≤ r := by
  intro r
  induction r with
  | zero => intro a; simp [Uploader.wrr_loop]
  | succ n ih =>
      intro a
      cases hop : op a with
      | ok v => simp [Uploader.wrr_loop, hop]
      | error e =>
          by_cases hd : Uploader.is_disconnect_error e
          · by_cases hrc : rc a
            · simp only [Uploader.wrr_loop, hop, hd, hrc, if_true]
              have := ih (a + 1)
              omega
            · by_cases ha : a = 2
              · subst ha
                simp [Uploader.wrr_loop, hop, hd, hrc]
              · simp only [Uploader.wrr_loop, hop, hd, hrc, ha, if_true,
                  if_false, Bool.false_eq_true]
                have := ih (a + 1)
                omega
          · simp [Uploader.wrr_loop, hop, hd]

/-- C5, counterexample.  The claim asserts that when all 3 attempts fail with
    disconnect errors, the generic "failed after retries" error is returned.
    On the code, if the reconnection after the 3rd (last) disconnect failure
    itself fails (`attempt == max_retries - 1`), the 3rd attempt's own
    disconnect error is returned instead of the generic one: here the
    operation always fails with "Connection lost" and reconnection succeeds
    only for the first two attempts. -/
theorem c5_reconnect_retry_counterexample :
    (Uploader.with_reconnect_retry (α := Unit)
        (fun _ => .error "Connection lost") (fun k => decide (k < 2))).result
      = .error "Connection lost" ∧
    (Uploader.with_reconnect_retry (α := Unit)
        (fun _ => .error "Connection lost") (fun k => decide (k < 2))).attempts = 3 ∧
    "Connection lost" ≠ Uploader.OP_FAILED_AFTER_RETRIES := by
  refine ⟨rfl, rfl, by decide⟩

/-- C5, amended.  `with_reconnect_retry` performs at most 3 operation
    attempts; a first-attempt success returns at once with no reconnect and
    no pause; an error without a disconnect substring is returned immediately
    with no reconnect and no retry; when all 3 attempts fail with disconnect
    errors and every reconnection succeeds, the generic failed-after-retries
    error is returned after 3 attempts, 3 reconnects and 2 pauses (the pause
    follows a successful reconnect only while attempts remain); and when all
    3 attempts fail with disconnect errors but the final reconnection fails,
    the 3rd attempt's own error is returned instead of the generic one. -/
theorem c5_reconnect_retry_amended :
    (∀ (α : Type) (op : Nat → Except String α) (rc : Nat → Bool),
      (Uploader.with_reconnect_retry op rc).attempts ≤ 3) ∧
    (∀ (α : Type) (op : Nat → Except String α) (rc : Nat → Bool) (v : α),
      op 0 = .ok v →
      Uploader.with_reconnect_retry op rc = ⟨.ok v, 1, 0, 0⟩) ∧
    (∀ (α : Type) (op : Nat → Except String α) (rc : Nat → Bool) (e : String),
      op 0 = .error e → Uploader.is_disconnect_error e = false →
      Uploader.with_reconnect_retry op rc = ⟨.error e, 1, 0, 0⟩) ∧
    (∀ (α : Type) (op : Nat → Except String α) (rc : Nat → Bool),
      (∀ k, k < 3 → ∃ e, op k = .error e ∧ Uploader.is_disconnect_error e = true) →
      (∀ k, k < 3 → rc k = true) →
      Uploader.with_reconnect_retry op rc =
        ⟨.error Uploader.OP_FAILED_AFTER_RETRIES, 3, 3, 2⟩) ∧
    (∀ (α : Type) (op : Nat → Except String α) (rc : Nat → Bool) (e2 : String),
      (∀ k, k < 3 → ∃ e, op k = .error e ∧ Uploader.is_disconnect_error e = true) →
      rc 0 = true → rc 1 = true → rc 2 = false →
      op 2 = .error e2 →
      (Uploader.with_reconnect_retry op rc).result = .error e2) := by
  refine ⟨?_, ?_, ?_, ?_, ?_⟩
  · intro α op rc
    exact Uploader.wrr_loop_attempts_le op rc 3 0
  · intro α op rc v h
    simp [Uploader.with_reconnect_retry, Uploader.wrr_loop, h]
  · intro α op rc e h hd
    simp [Uploader.with_reconnect_retry, Uploader.wrr_loop, h, hd]
  · intro α op rc hall hrc
    obtain ⟨e0, h0, d0⟩ := hall 0 (by omega)
    obtain ⟨e1, h1, d1⟩ := hall 1 (by omega)
    obtain ⟨e2, h2, d2⟩ := hall 2 (by omega)
    simp [Uploader.with_reconnect_retry, Uploader.wrr_loop, h0, d0, h1, d1,
      h2, d2, hrc 0 (by omega), hrc 1 (by omega), hrc 2 (by omega)]
  · intro α op rc e2 hall hrc0 hrc1 hrc2 h2
    obtain ⟨e0, h0, d0⟩ := hall 0 (by omega)
    obtain ⟨e1, h1, d1⟩ := hall 1 (by omega)
    obtain ⟨e2x, h2x, d2x⟩ := hall 2 (by omega)
    have he : e2x = e2 := by
      rw [h2] at h2x
      exact (Except.error.injEq _ _).mp h2x.symm
    subst he
    simp [Uploader.with_reconnect_retry, Uploader.wrr_loop, h0, d0, h1, d1,
      h2x, d2x, hrc0, hrc1, hrc2]

/-- C5, witness for the amended theorem: a non-disconnect error ("boom") on
    the first attempt is surfaced at once, with one attempt, no reconnect and
    no pause. -/
theorem c5_reconnect_retry_witness :
    Uploader.with_reconnect_retry (α := Unit)
        (fun _ => .error "boom") (fun _ => true)
      = ⟨.error "boom", 1, 0, 0⟩ := by
  exact c5_reconnect_retry_amended.2.2.1 Unit
    (fun _ => .error "boom") (fun _ => true) "boom" rfl (by decide)

/-- C7, confirmed.  After the extraction subprocess exits: a failure status
    yields an error carrying the captured stderr text; a success status
    searches (1) the output directory for a file whose name starts with the
    stem, then (2) the stem joined with each known extension, then (3) the
    directory by stem again, and when all three steps miss it yields the
    "file not found" error despite the success status.  The conjuncts also
    witness the priority order: step 1 wins when it matches; step 2 applies
    when no directory entry matches the stem; step 3 can still recover a
    stem-matching file when the first scan was skipped and no extension
    probe hit. -/
theorem c7_locate_file :
    (∀ (stderrText : String) (s1 s2 : Bool) (files : List String)
        (pexists : String → Bool) (stem : String),
      Fetcher.download_finish false stderrText s1 s2 files pexists stem
        = .error ("yt-dlp failed: " ++ stderrText.trim)) ∧
    (∀ (stderrText : String) (s1 s2 : Bool) (files : List String)
        (pexists : String → Bool) (stem : String),
      (∀ f ∈ files, stem.toList.isPrefixOf f.toList = false) →
      (∀ ext ∈ Fetcher.KNOWN_EXTS, pexists (stem ++ ext) = false) →
      Fetcher.download_finish true stderrText s1 s2 files pexists stem
        = .error "Downloaded file not found") ∧
    (∀ (stderrText : String) (s2 : Bool) (files : List String)
        (pexists : String → Bool) (stem f : String),
      Fetcher.find_by_stem files stem = some f →
      Fetcher.download_finish true stderrText true s2 files pexists stem = .ok f) ∧
    (∀ (stderrText : String) (s1 s2 : Bool) (files : List String)
        (pexists : String → Bool) (stem g : String),
      (∀ f ∈ files, stem.toList.isPrefixOf f.toList = false) →
      Fetcher.find_by_ext pexists stem = some g →
      Fetcher.download_finish true stderrText s1 s2 files pexists stem = .ok g) ∧
    (∀ (stderrText : String) (files : List String)
        (pexists : String → Bool) (stem f : String),
      Fetcher.find_by_ext pexists stem = none →
      Fetcher.find_by_stem files stem = some f →
      Fetcher.download_finish true stderrText false true files pexists stem = .ok f) := by
  refine ⟨?_, ?_, ?_, ?_, ?_⟩
  · intro stderrText s1 s2 files pexists stem
    simp [Fetcher.download_finish]
  · intro stderrText s1 s2 files pexists stem hstem hext
    have h1 : Fetcher.find_by_stem files stem = none := by
      unfold Fetcher.find_by_stem
      rw [List.find?_eq_none]
      intro f hf h
      rw [hstem f hf] at h
      simp at h
    have h2 : Fetcher.find_by_ext pexists stem = none := by
      unfold Fetcher.find_by_ext
      rw [List.find?_eq_none.mpr]
      · rfl
      · intro ext hx
        simp [hext ext hx]
    cases s1 <;> cases s2 <;>
      simp [Fetcher.download_finish, Fetcher.locate_output, h1, h2]
  · intro stderrText s2 files pexists stem f h
    simp [Fetcher.download_finish, Fetcher.locate_output, h]
  · intro stderrText s1 s2 files pexists stem g hstem hext
    have h1 : Fetcher.find_by_stem files stem = none := by
      unfold Fetcher.find_by_stem
      rw [List.find?_eq_none]
      intro f hf h
      rw [hstem f hf] at h
      simp at h
    cases s1 <;>
      simp [Fetcher.download_finish, Fetcher.locate_output, h1, hext]
  · intro stderrText files pexists stem f hext hstem
    simp [Fetcher.download_finish, Fetcher.locate_output, hext, hstem]

/-- C7, witness: with the directory containing "ab.mp4" and stem "ab", the
    first scan finds the file; with an empty directory and no existing
    extension path, the success status still ends in the "file not found"
    error. -/
theorem c7_locate_file_witness :
    Fetcher.download_finish true "" true true ["ab.mp4"] (fun _ => false) "ab"
      = .ok "ab.mp4" ∧
    Fetcher.download_finish true "" true true [] (fun _ => false) "ab"
      = .error "Downloaded file not found" := by
  constructor
  · exact c7_locate_file.2.2.1 "" true ["ab.mp4"] (fun _ => false) "ab" "ab.mp4"
      (by decide)
  · exact c7_locate_file.2.1 "" true true [] (fun _ => false) "ab"
      (by intro f hf; cases hf) (by intro ext hx; rfl)

/-- C3, confirmed.  Transport selection compares the downloaded file size in
    bytes against the fixed threshold 48 * 1024 * 1024: strictly larger goes
    to the persistent MTProto client, less-or-equal goes to the direct Bot
    API transport; in particular exactly 48 MiB + 1 routes to MTProto and
    exactly 48 MiB routes to the Bot API. -/
theorem c3_transport_threshold :
    Link.TELEGRAM_BOT_API_FILE_LIMIT = 48 * 1024 * 1024 ∧
    (∀ n : Nat, Link.TELEGRAM_BOT_API_FILE_LIMIT < n →
      Link.select_transport n = Link.Transport.mtproto) ∧
    (∀ n : Nat, n ≤ Link.TELEGRAM_BOT_API_FILE_LIMIT →
      Link.select_transport n = Link.Transport.botApi) ∧
    Link.select_transport (48 * 1024 * 1024 + 1) = Link.Transport.mtproto ∧
    Link.select_transport (48 * 1024 * 1024) = Link.Transport.botApi := by
  refine ⟨rfl, ?_, ?_, by decide, by decide⟩
  · intro n h
    simp only [Link.select_transport, gt_iff_lt, if_pos h]
  · intro n h
    simp only [Link.select_transport, gt_iff_lt]
    rw [if_neg (by omega)]

/-- C3, witness: the two boundary sizes, routed through the two universally
    quantified parts of the theorem. -/
theorem c3_transport_threshold_witness :
    Link.select_transport 50331649 = Link.Transport.mtproto ∧
    Link.select_transport 50331648 = Link.Transport.botApi := by
  constructor
  · exact c3_transport_threshold.2.1 50331649 (by decide)
  · exact c3_transport_threshold.2.2.1 50331648 (by decide)

/-- Helper: a successful attempt ends the retry loop at once. -/
theorem Link.retry_go_ok {α : Type} (f : Nat → Link.Attempt α) (fuel retries : Nat)
    (v : α) (h : f retries = .ok v) :
    Link.retry_go f (fuel + 1) retries = (.ok v, []) := by
  simp [Link.retry_go, h]

/-- Helper: a failed attempt (operation error or timeout alike) with retries
    remaining increments the counter, sleeps the backoff delay and recurses. -/
theorem Link.retry_go_fail_step {α : Type} (f : Nat → Link.Attempt α)
    (fuel retries : Nat) (h : (f retries).isFail = true) (hlt : retries + 1 < 3) :
    Link.retry_go f (fuel + 1) retries
      = ((Link.retry_go f fuel (retries + 1)).1,
          Link.retry_delay (retries + 1) :: (Link.retry_go f fuel (retries + 1)).2) := by
  cases hf : f retries with
  | ok v => rw [hf] at h; simp [Link.Attempt.isFail] at h
  | opErr e =>
      simp only [Link.retry_go, hf]
      rw [if_neg (by omega)]
  | timedOut =>
      simp only [Link.retry_go, hf]
      rw [if_neg (by omega)]

/-- Helper: the third failed attempt (operation error or timeout alike)
    breaks the loop with that attempt's own error and no further sleep. -/
theorem Link.retry_go_fail_last {α : Type} (f : Nat → Link.Attempt α)
    (fuel retries : Nat) (h : (f retries).isFail = true) (hge : 3 ≤ retries + 1) :
    Link.retry_go f (fuel + 1) retries = (.error ((f retries).failErr), []) := by
  cases hf : f retries with
  | ok v => rw [hf] at h; simp [Link.Attempt.isFail] at h
  | opErr e =>
      simp only [Link.retry_go, hf]
      rw [if_pos (by omega)]
      simp [Link.Attempt.failErr, hf]
  | timedOut =>
      simp only [Link.retry_go, hf]
      rw [if_pos (by omega)]
      simp [Link.Attempt.failErr, hf]

/-- C4, confirmed.  The download loop and the direct-transport send loop run
    at most 3 attempts; the backoff slept after the k-th failure is
    `min(1000 * 2^(k-1), 30000)` milliseconds, concretely 1000 ms then 2000
    ms; a timeout expiry (the `Elapsed` error of the per-attempt wall-clock
    timeout — 5 minutes for the download, 10 minutes for the direct upload)
    counts as one failed attempt exactly like an operation error (`isFail`
    covers both uniformly); after the 3rd failure the loop surfaces the last
    attempt's error and makes no further attempt. -/
theorem c4_retry_bounds :
    Link.DOWNLOAD_TIMEOUT_MS = 300000 ∧ Link.UPLOAD_TIMEOUT_MS = 600000 ∧
    (∀ k : Nat, Link.retry_delay (k + 1) = min (1000 * 2 ^ k) 30000) ∧
    (∀ (α : Type) (f : Nat → Link.Attempt α) (v : α),
      f 0 = .ok v → Link.retry_loop f = (.ok v, [])) ∧
    (∀ (α : Type) (f : Nat → Link.Attempt α) (v : α),
      (f 0).isFail = true → f 1 = .ok v →
      Link.retry_loop f = (.ok v, [1000])) ∧
    (∀ (α : Type) (f : Nat → Link.Attempt α) (v : α),
      (f 0).isFail = true → (f 1).isFail = true → f 2 = .ok v →
      Link.retry_loop f = (.ok v, [1000, 2000])) ∧
    (∀ (α : Type) (f : Nat → Link.Attempt α),
      (f 0).isFail = true → (f 1).isFail = true → (f 2).isFail = true →
      Link.retry_loop f = (.error ((f 2).failErr), [1000, 2000])) := by
  have d1 : Link.retry_delay 1 = 1000 := by decide
  have d2 : Link.retry_delay 2 = 2000 := by decide
  refine ⟨rfl, rfl, fun k => rfl, ?_, ?_, ?_, ?_⟩
  · intro α f v h
    exact Link.retry_go_ok f 2 0 v h
  · intro α f v h0 h1
    unfold Link.retry_loop
    rw [Link.retry_go_fail_step f 2 0 h0 (by omega),
      Link.retry_go_ok f 1 1 v h1, d1]
  · intro α f v h0 h1 h2
    unfold Link.retry_loop
    rw [Link.retry_go_fail_step f 2 0 h0 (by omega),
      Link.retry_go_fail_step f 1 1 h1 (by omega),
      Link.retry_go_ok f 0 2 v h2, d1, d2]
  · intro α f h0 h1 h2
    unfold Link.retry_loop
    rw [Link.retry_go_fail_step f 2 0 h0 (by omega),
      Link.retry_go_fail_step f 1 1 h1 (by omega),
      Link.retry_go_fail_last f 0 2 h2 (by omega), d1, d2]

/-- C4, witness: a run whose first two attempts fail (one operation error,
    one timeout) and whose third succeeds ends with the success value after
    backoffs of 1000 ms and 2000 ms; a run of three failures ends with the
    third attempt's error. -/
theorem c4_retry_bounds_witness :
    Link.retry_loop (α := Unit)
        (fun k => if k = 0 then .opErr "e0" else if k = 1 then .timedOut else .ok ())
      = (.ok (), [1000, 2000]) ∧
    Link.retry_loop (α := Unit)
        (fun k => if k = 2 then .opErr "e2" else .timedOut)
      = (.error "e2", [1000, 2000]) := by
  constructor
  · exact c4_retry_bounds.2.2.2.2.2.1 Unit
      (fun k => if k = 0 then .opErr "e0" else if k = 1 then .timedOut else .ok ())
      () (by decide) (by decide) (by decide)
  · have h := c4_retry_bounds.2.2.2.2.2.2 Unit
      (fun k => if k = 2 then .opErr "e2" else .timedOut)
      (by decide) (by decide) (by decide)
    simpa using h

/-- Helper: no branch of the permit-guarded pipeline mutates the rate-limit
    map; every exit state keeps the `lastSend` it entered with. -/
theorem Link.after_permit_state_lastSend (env : Link.Env) (url : String)
    (s2 : Link.BotState) :
    (Link.after_permit env url s2).state.lastSend = s2.lastSend := by
  unfold Link.after_permit Link.finish Link.remove_url
  dsimp only
  repeat' split
  all_goals rfl

/-- Helper: on a fresh (not in-flight) TikTok link, `link_handler` claims the
    dedup slot, applies the rate limiter, acquires the permit and hands over
    to the pipeline stage. -/
theorem Link.link_handler_fresh (env : Link.Env) (s0 : Link.BotState) (url : String)
    (ht : env.msgText = some url) (hmenu : Link.is_menu_button url = false)
    (htik : strContains url "tiktok.com" = true) (hmem : url ∉ s0.urlProcessing) :
    Link.link_handler env s0 =
      ⟨(Link.after_permit env url
          ⟨url :: s0.urlProcessing,
            Link.rate_limit_update s0.lastSend env.chatId env.now⟩).result,
        (Link.after_permit env url
          ⟨url :: s0.urlProcessing,
            Link.rate_limit_update s0.lastSend env.chatId env.now⟩).state,
        [Link.Event.updateActivity env.chatId] ++ [Link.Event.insertUrl url] ++
          (if 0 < Link.rate_limit_wait s0.lastSend env.chatId env.now then
            [Link.Event.rateSleep (Link.rate_limit_wait s0.lastSend env.chatId env.now)]
          else []) ++
          [Link.Event.acquirePermit] ++
          (Link.after_permit env url
            ⟨url :: s0.urlProcessing,
              Link.rate_limit_update s0.lastSend env.chatId env.now⟩).events⟩ := by
  simp [Link.link_handler, ht, hmenu, htik, hmem]

/-- C9, confirmed.  The rate limiter never rejects: when less than the fixed
    2-second interval elapsed since the recipient's recorded last accepted
    submission, the task sleeps exactly the remainder of the interval; when
    the interval already elapsed, or no prior entry exists, there is no wait;
    in all cases the recipient's entry is set to the time after the wait,
    other entries are untouched, and processing proceeds (the upload-permit
    acquisition that follows the rate-limit block is always reached, and the
    final state carries the unconditionally updated map). -/
theorem c9_rate_limiter :
    (∀ (m : Int → Option Nat) (uid : Int) (now : Nat),
      Link.rate_limit_update m uid now uid
        = some (now + Link.rate_limit_wait m uid now) ∧
      (∀ i : Int, i ≠ uid → Link.rate_limit_update m uid now i = m i)) ∧
    (∀ (m : Int → Option Nat) (uid : Int) (now last : Nat),
      m uid = some last → now - last < 2000 →
      Link.rate_limit_wait m uid now = 2000 - (now - last)) ∧
    (∀ (m : Int → Option Nat) (uid : Int) (now last : Nat),
      m uid = some last → 2000 ≤ now - last →
      Link.rate_limit_wait m uid now = 0) ∧
    (∀ (m : Int → Option Nat) (uid : Int) (now : Nat),
      m uid = none → Link.rate_limit_wait m uid now = 0) ∧
    (∀ (env : Link.Env) (s0 : Link.BotState) (url : String),
      env.msgText = some url → Link.is_menu_button url = false →
      strContains url "tiktok.com" = true → url ∉ s0.urlProcessing →
      Link.Event.acquirePermit ∈ (Link.link_handler env s0).events ∧
      (Link.link_handler env s0).state.lastSend
        = Link.rate_limit_update s0.lastSend env.chatId env.now) := by
  refine ⟨?_, ?_, ?_, ?_, ?_⟩
  · intro m uid now
    constructor
    · simp [Link.rate_limit_update]
    · intro i hi
      simp [Link.rate_limit_update, hi]
  · intro m uid now last hm hlt
    simp [Link.rate_limit_wait, hm, hlt]
  · intro m uid now last hm hge
    unfold Link.rate_limit_wait
    rw [hm]
    simp only
    rw [if_neg (by omega)]
  · intro m uid now hm
    simp [Link.rate_limit_wait, hm]
  · intro env s0 url ht hmenu htik hmem
    rw [Link.link_handler_fresh env s0 url ht hmenu htik hmem]
    refine ⟨?_, ?_⟩
    · simp
    · exact Link.after_permit_state_lastSend env url _

/-- C9, witness: with the last accepted submission 500 ms ago, the wait is
    exactly 1500 ms and the entry is moved to the 2000 ms mark; a fresh
    TikTok link then reaches the permit acquisition. -/
theorem c9_rate_limiter_witness :
    Link.rate_limit_update (fun i => if i = 7 then some 0 else none) 7 500 7
      = some 2000 ∧
    Link.rate_limit_wait (fun i => if i = 7 then some 0 else none) 7 500 = 1500 ∧
    Link.Event.acquirePermit ∈
      (Link.link_handler
        { now := 500, chatId := 7, msgText := some "https://tiktok.com/v",
          quality := "best", subscriptionRequired := false, isAdmin := false,
          isSubscribed := false, dupNoticeOk := true, gateNoticeOk := true,
          progressStartOk := true, downloadAttempts := fun _ => .opErr "x",
          dlErrMsgOk := true, metadata1 := some 1, metadata2 := some 1,
          mtprotoResult := none, floodErrMsgOk := true,
          botApiAttempts := fun _ => .ok (), sendFailMsgOk := true,
          invalidLinkMsgOk := true }
        ⟨[], fun i => if i = 7 then some 0 else none⟩).events := by
  refine ⟨?_, ?_, ?_⟩
  · have h := (c9_rate_limiter.1 (fun i => if i = 7 then some 0 else none) 7 500).1
    simpa using h
  · exact c9_rate_limiter.2.1 (fun i => if i = 7 then some 0 else none) 7 500 0
      (by simp) (by decide)
  · exact (c9_rate_limiter.2.2.2.2
      { now := 500, chatId := 7, msgText := some "https://tiktok.com/v",
        quality := "best", subscriptionRequired := false, isAdmin := false,
        isSubscribed := false, dupNoticeOk := true, gateNoticeOk := true,
        progressStartOk := true, downloadAttempts := fun _ => .opErr "x",
        dlErrMsgOk := true, metadata1 := some 1, metadata2 := some 1,
        mtprotoResult := none, floodErrMsgOk := true,
        botApiAttempts := fun _ => .ok (), sendFailMsgOk := true,
        invalidLinkMsgOk := true }
      ⟨[], fun i => if i = 7 then some 0 else none⟩
      "https://tiktok.com/v" rfl (by decide) (by decide) (by simp)).1

/-- C2, confirmed.  When the submitted TikTok link is already in the
    in-flight set, the invocation sends the already-being-processed notice
    and returns immediately: the shared state (in-flight set and rate-limit
    map) is unchanged, no second claim is inserted, no rate-limit sleep
    happens, no upload permit is acquired and no download attempt is made;
    when the notice send succeeds the invocation returns Ok. -/
theorem c2_dedup_reject (env : Link.Env) (s0 : Link.BotState) (url : String)
    (ht : env.msgText = some url)
    (htik : strContains url "tiktok.com" = true)
    (hmenu : Link.is_menu_button url = false)
    (hmem : url ∈ s0.urlProcessing) :
    (Link.link_handler env s0).state = s0 ∧
    (Link.link_handler env s0).events
      = [Link.Event.updateActivity env.chatId,
          Link.Event.sendMsg env.chatId Link.MSG_ALREADY_PROCESSING] ∧
    Link.Event.insertUrl url ∉ (Link.link_handler env s0).events ∧
    Link.Event.acquirePermit ∉ (Link.link_handler env s0).events ∧
    (∀ k : Nat, Link.Event.downloadAttempt k ∉ (Link.link_handler env s0).events) ∧
    (∀ w : Nat, Link.Event.rateSleep w ∉ (Link.link_handler env s0).events) ∧
    (env.dupNoticeOk = true → (Link.link_handler env s0).result = .ok ()) := by
  have key : Link.link_handler env s0 =
      ⟨if env.dupNoticeOk then .ok () else .error Link.SEND_ERR, s0,
        [Link.Event.updateActivity env.chatId,
          Link.Event.sendMsg env.chatId Link.MSG_ALREADY_PROCESSING]⟩ := by
    simp [Link.link_handler, ht, hmenu, htik, hmem]
  rw [key]
  refine ⟨rfl, rfl, by simp, by simp, by intro k; simp, by intro w; simp, ?_⟩
  intro h
  simp [h]

/-- C2, witness: a concrete second submission of an in-flight link leaves
    the state untouched, emits only the notice, and returns Ok. -/
theorem c2_dedup_reject_witness :
    (Link.link_handler
      { now := 0, chatId := 5, msgText := some "https://tiktok.com/v",
        quality := "best", subscriptionRequired := true, isAdmin := false,
        isSubscribed := false, dupNoticeOk := true, gateNoticeOk := true,
        progressStartOk := true, downloadAttempts := fun _ => .opErr "x",
        dlErrMsgOk := true, metadata1 := none, metadata2 := none,
        mtprotoResult := none, floodErrMsgOk := true,
        botApiAttempts := fun _ => .ok (), sendFailMsgOk := true,
        invalidLinkMsgOk := true }
      ⟨["https://tiktok.com/v"], fun _ => none⟩).state
      = ⟨["https://tiktok.com/v"], fun _ => none⟩ ∧
    Link.Event.acquirePermit ∉
      (Link.link_handler
        { now := 0, chatId := 5, msgText := some "https://tiktok.com/v",
          quality := "best", subscriptionRequired := true, isAdmin := false,
          isSubscribed := false, dupNoticeOk := true, gateNoticeOk := true,
          progressStartOk := true, downloadAttempts := fun _ => .opErr "x",
          dlErrMsgOk := true, metadata1 := none, metadata2 := none,
          mtprotoResult := none, floodErrMsgOk := true,
          botApiAttempts := fun _ => .ok (), sendFailMsgOk := true,
          invalidLinkMsgOk := true }
        ⟨["https://tiktok.com/v"], fun _ => none⟩).events := by
  have h := c2_dedup_reject
    { now := 0, chatId := 5, msgText := some "https://tiktok.com/v",
      quality := "best", subscriptionRequired := true, isAdmin := false,
      isSubscribed := false, dupNoticeOk := true, gateNoticeOk := true,
      progressStartOk := true, downloadAttempts := fun _ => .opErr "x",
      dlErrMsgOk := true, metadata1 := none, metadata2 := none,
      mtprotoResult := none, floodErrMsgOk := true,
      botApiAttempts := fun _ => .ok (), sendFailMsgOk := true,
      invalidLinkMsgOk := true }
    ⟨["https://tiktok.com/v"], fun _ => none⟩
    "https://tiktok.com/v" rfl (by decide) (by decide) (by simp)
  exact ⟨h.1, h.2.2.2.1⟩

/-- C1, code bug.  The claim (and the spec invariant "removed atomically on
    every exit path — never leaked") requires the URL to leave the in-flight
    set when the subscription-gate path exits.  The code removes it only
    when the gate-notice send succeeds: the `?` on `bot.send_message` at
    src/handlers/link.rs line 146 returns before the cleanup block at lines
    148-152, so a failed notice send ends the invocation with the URL still
    claimed — permanently blocking that URL.  First conjunct: intended
    behaviour when the send succeeds (URL removed).  Remaining conjuncts:
    with the send failing, the invocation exits with an error, the insertion
    happened, no removal happened, and the URL is still in the set. -/
theorem c1_dedup_release_bug :
    ("https://tiktok.com/v" ∉
      (Link.link_handler
        { now := 0, chatId := 5, msgText := some "https://tiktok.com/v",
          quality := "best", subscriptionRequired := true, isAdmin := false,
          isSubscribed := false, dupNoticeOk := true, gateNoticeOk := true,
          progressStartOk := true, downloadAttempts := fun _ => .opErr "x",
          dlErrMsgOk := true, metadata1 := none, metadata2 := none,
          mtprotoResult := none, floodErrMsgOk := true,
          botApiAttempts := fun _ => .ok (), sendFailMsgOk := true,
          invalidLinkMsgOk := true }
        ⟨[], fun _ => none⟩).state.urlProcessing) ∧
    ((Link.link_handler
        { now := 0, chatId := 5, msgText := some "https://tiktok.com/v",
          quality := "best", subscriptionRequired := true, isAdmin := false,
          isSubscribed := false, dupNoticeOk := true, gateNoticeOk := false,
          progressStartOk := true, downloadAttempts := fun _ => .opErr "x",
          dlErrMsgOk := true, metadata1 := none, metadata2 := none,
          mtprotoResult := none, floodErrMsgOk := true,
          botApiAttempts := fun _ => .ok (), sendFailMsgOk := true,
          invalidLinkMsgOk := true }
        ⟨[], fun _ => none⟩).result = .error Link.SEND_ERR) ∧
    (Link.Event.insertUrl "https://tiktok.com/v" ∈
      (Link.link_handler
        { now := 0, chatId := 5, msgText := some "https://tiktok.com/v",
          quality := "best", subscriptionRequired := true, isAdmin := false,
          isSubscribed := false, dupNoticeOk := true, gateNoticeOk := false,
          progressStartOk := true, downloadAttempts := fun _ => .opErr "x",
          dlErrMsgOk := true, metadata1 := none, metadata2 := none,
          mtprotoResult := none, floodErrMsgOk := true,
          botApiAttempts := fun _ => .ok (), sendFailMsgOk := true,
          invalidLinkMsgOk := true }
        ⟨[], fun _ => none⟩).events) ∧
    (Link.Event.removeUrl "https://tiktok.com/v" ∉
      (Link.link_handler
        { now := 0, chatId := 5, msgText := some "https://tiktok.com/v",
          quality := "best", subscriptionRequired := true, isAdmin := false,
          isSubscribed := false, dupNoticeOk := true, gateNoticeOk := false,
          progressStartOk := true, downloadAttempts := fun _ => .opErr "x",
          dlErrMsgOk := true, metadata1 := none, metadata2 := none,
          mtprotoResult := none, floodErrMsgOk := true,
          botApiAttempts := fun _ => .ok (), sendFailMsgOk := true,
          invalidLinkMsgOk := true }
        ⟨[], fun _ => none⟩).events) ∧
    ("https://tiktok.com/v" ∈
      (Link.link_handler
        { now := 0, chatId := 5, msgText := some "https://tiktok.com/v",
          quality := "best", subscriptionRequired := true, isAdmin := false,
          isSubscribed := false, dupNoticeOk := true, gateNoticeOk := false,
          progressStartOk := true, downloadAttempts := fun _ => .opErr "x",
          dlErrMsgOk := true, metadata1 := none, metadata2 := none,
          mtprotoResult := none, floodErrMsgOk := true,
          botApiAttempts := fun _ => .ok (), sendFailMsgOk := true,
          invalidLinkMsgOk := true }
        ⟨[], fun _ => none⟩).state.urlProcessing) := by
  refine ⟨by decide, rfl, by decide, by decide, by decide⟩
